import Mathlib

/-!
Verification of the "Happy Thoughts" API core against its specification.

The definitions below are a shallow embedding of the JavaScript source:

* the tag classifier `identifyTags` (src/store/thoughtsStore.js and
  src/services/thoughtsService.js, identical in both files),
* the mongoose-backed service operations `createThought`, `updateThought`,
  `deleteThought` (src/services/thoughtsService.js) together with the
  schema validation of src/models/Thought.js,
* the like handler `likeThought` (src/controllers/thoughtsController.js),
* the file-store operations `loadData`, `getPaginatedThoughts`,
  `updateExistingThoughtsWithTags` (src/store/thoughtsStore.js).

JavaScript strings are modelled as Lean `String`s viewed as lists of
Unicode scalar values (`String.data`); machine details that no theorem
below depends on (UTF-16 surrogate pairs, `NaN`, fractional JSON numbers)
are noted where they are abstracted.
-/

namespace HappyThoughts

/-! ## JavaScript string helpers -/

/-- `needle.isPrefixOf haystack` on lists of characters, written out so the
kernel evaluates it cheaply. -/
def startsWithChars : List Char → List Char → Bool
  | [], _ => true
  | _ :: _, [] => false
  | a :: as, b :: bs => a == b && startsWithChars as bs

/-- JavaScript `haystack.includes(needle)`: substring containment at
Unicode-scalar granularity. -/
def jsIncludes (haystack needle : List Char) : Bool :=
  match haystack with
  | [] => needle.isEmpty
  | _ :: t => startsWithChars needle haystack || jsIncludes t needle

/-- JavaScript `String.prototype.toLowerCase`, restricted to the ASCII
range (`Char.toLower`); the keyword tables are all ASCII, and no claim
exercises non-ASCII case folding. -/
def jsToLower (s : List Char) : List Char :=
  s.map Char.toLower

/-- Whitespace stripped by JavaScript `String.prototype.trim` (the code
points that occur in the repository's data). -/
def isJsWhitespace (c : Char) : Bool :=
  c == ' ' || c == '\t' || c == '\n' || c == '\r' || c == '\x0b' || c == '\x0c'

/-- JavaScript `message.trim()`. -/
def jsTrim (s : String) : String :=
  ⟨((s.data.dropWhile isJsWhitespace).reverse.dropWhile isJsWhitespace).reverse⟩

/-! ## Tag classifier

`identifyTags` from src/store/thoughtsStore.js lines 64-268 (the copy in
src/services/thoughtsService.js lines 256-460 is line-for-line the same).
-/

/-- The keyword table `tagKeywords`, in declaration order. -/
def tagKeywords : List (String × List String) :=
  [ ("food",
     ["food", "eat", "cook", "recipe", "coffee", "tea", "pizza", "cake",
      "chocolate", "cookies", "restaurant", "dinner", "lunch", "breakfast",
      "hungry", "delicious", "taste", "flavor", "soup", "pasta"]),
    ("programming",
     ["code", "debug", "function", "api", "javascript", "python", "html",
      "css", "react", "node", "server", "database", "compile", "syntax",
      "algorithm", "programming", "developer", "git", "github", "bug"]),
    ("work",
     ["work", "job", "office", "meeting", "deadline", "project", "boss",
      "colleague", "salary", "career", "interview", "presentation", "team",
      "client", "business"]),
    ("home",
     ["home", "house", "family", "room", "clean", "organize", "furniture",
      "garden", "plants", "pet", "cat", "dog", "parents", "siblings"]),
    ("health",
     ["exercise", "workout", "gym", "run", "walk", "yoga", "sleep", "tired",
      "energy", "healthy", "medicine", "doctor", "hospital"]),
    ("weather",
     ["sunny", "rain", "snow", "cold", "hot", "weather", "storm", "cloud",
      "wind", "sunshine", "temperature"]),
    ("emotions",
     ["happy", "sad", "excited", "nervous", "angry", "love", "hate",
      "anxious", "calm", "stressed", "grateful", "proud", "disappointed"]),
    ("travel",
     ["travel", "vacation", "trip", "flight", "hotel", "beach", "mountain",
      "city", "country", "airport", "passport"]),
    ("entertainment",
     ["movie", "music", "book", "game", "tv", "show", "concert", "theater",
      "dance", "party", "festival"]),
    ("learning",
     ["learn", "study", "school", "university", "course", "lesson",
      "teacher", "student", "education", "knowledge"]) ]

/-- The emoji table `emojiPatterns`: each regex `/[...]/` is a character
class, i.e. it matches iff the text contains one of the listed scalars.
`🛋️` in the source is the scalar `🛋` followed by the variation selector
`U+FE0F`, so the `home` class contains both scalars. -/
def emojiPatterns : List (String × List Char) :=
  [ ("food", ['🍕', '🍰', '🍪', '☕', '🍝', '🥘', '🍳', '🥗', '🍔', '🌮']),
    ("emotions", ['😄', '😊', '😢', '😍', '🥰', '😤', '😱']),
    ("work", ['💼', '📊', '📈', '💻', '📝']),
    ("home", ['🏠', '🏡', '🛋', '️', '🌱']) ]

/-- One keyword category matches: some keyword occurs bare, pluralised
(`+ "s"`) or as a gerund (`+ "ing"`) in the lower-cased text. -/
def categoryMatchesKeywords (text : List Char) (keywords : List String) : Bool :=
  keywords.any fun keyword =>
    jsIncludes text keyword.data ||
    jsIncludes text (keyword ++ "s").data ||
    jsIncludes text (keyword ++ "ing").data

/-- One emoji category matches: the original (non-lower-cased) message
contains one of the category's scalars. -/
def categoryMatchesEmoji (message : List Char) (chars : List Char) : Bool :=
  chars.any fun c => message.contains c

/-- `[...new Set(tags)]`: deduplication keeping the first occurrence of
each element, in encounter order (a JavaScript `Set` iterates in insertion
order). -/
def dedupFirst (l : List String) : List String :=
  l.foldl (fun acc x => if acc.contains x then acc else acc ++ [x]) []

/-- The matched categories before deduplication: keyword categories in
table order, then emoji categories in table order — exactly the pushes
performed by the two `for` loops of the source. -/
def matchedTags (message : String) : List String :=
  (tagKeywords.filter fun p =>
      categoryMatchesKeywords (jsToLower message.data) p.2).map Prod.fst ++
  (emojiPatterns.filter fun p =>
      categoryMatchesEmoji message.data p.2).map Prod.fst

/-- `identifyTags(message)`: classify a message into category labels,
falling back to `["general"]` when nothing matched. -/
def identifyTags (message : String) : List String :=
  let uniqueTags := dedupFirst (matchedTags message)
  if uniqueTags.isEmpty then ["general"] else uniqueTags

/-- No keyword category and no emoji category matches the message. -/
def noCategoryMatches (message : String) : Bool :=
  (tagKeywords.all fun p =>
    !(categoryMatchesKeywords (jsToLower message.data) p.2)) &&
  (emojiPatterns.all fun p => !(categoryMatchesEmoji message.data p.2))

/-! ## Classifier lemmas -/

theorem foldl_dedup_ne_nil (l : List String) (acc : List String) (h : acc ≠ []) :
    l.foldl (fun acc x => if acc.contains x then acc else acc ++ [x]) acc ≠ [] := by
  induction l generalizing acc with
  | nil => exact h
  | cons x xs ih =>
    simp only [List.foldl_cons]
    apply ih
    split
    · exact h
    · simp

theorem dedupFirst_ne_nil {l : List String} (h : l ≠ []) : dedupFirst l ≠ [] := by
  cases l with
  | nil => exact absurd rfl h
  | cons x xs =>
    unfold dedupFirst
    simp only [List.foldl_cons]
    apply foldl_dedup_ne_nil
    simp

theorem noCategoryMatches_matchedTags {message : String}
    (h : noCategoryMatches message = true) : matchedTags message = [] := by
  unfold noCategoryMatches at h
  rw [Bool.and_eq_true] at h
  obtain ⟨h1, h2⟩ := h
  rw [List.all_eq_true] at h1 h2
  unfold matchedTags
  rw [List.append_eq_nil]
  constructor
  · rw [List.map_eq_nil_iff, List.filter_eq_nil_iff]
    intro p hp
    have := h1 p hp
    simpa using this
  · rw [List.map_eq_nil_iff, List.filter_eq_nil_iff]
    intro p hp
    have := h2 p hp
    simpa using this

/-! ## C1, C2: classifier claims -/

/-- C1: for every string input (including the empty string),
`identifyTags` returns a non-empty label list, and if no keyword category
and no emoji category matches, the result is exactly `["general"]`. -/
theorem identifyTags_nonempty_general (message : String) :
    identifyTags message ≠ [] ∧
    (noCategoryMatches message = true → identifyTags message = ["general"]) := by
  constructor
  · intro heq
    simp only [identifyTags] at heq
    split at heq
    · exact List.cons_ne_nil _ _ heq
    · rename_i h
      rw [heq] at h
      exact h rfl
  · intro h
    have h2 := noCategoryMatches_matchedTags h
    simp only [identifyTags, h2]
    rfl

theorem identifyTags_nonempty_general_witness :
    noCategoryMatches "" = true ∧ identifyTags "" = ["general"] :=
  ⟨by decide, (identifyTags_nonempty_general "").2 (by decide)⟩

/-- C2 counterexample: `identifyTags "I love pizza and coding"` does not
contain both `"food"` and `"programming"` — no programming keyword occurs
in the text, bare, pluralised or as a gerund (`"coding"` is not
`"code" ++ "ing"`). -/
theorem identifyTags_coding_counterexample :
    ¬ ("food" ∈ identifyTags "I love pizza and coding" ∧
       "programming" ∈ identifyTags "I love pizza and coding") := by
  decide

/-- C2 amended: `identifyTags "I love pizza and coding"` includes
`"food"` (and `"emotions"`, from `"love"`) but not `"programming"`; the
full result is `["food", "emotions"]`. -/
theorem identifyTags_pizza_coding :
    "food" ∈ identifyTags "I love pizza and coding" ∧
    "programming" ∉ identifyTags "I love pizza and coding" ∧
    identifyTags "I love pizza and coding" = ["food", "emotions"] := by
  decide

/-! ## Thought documents and service operations -/

/-- A mongoose `Thought` document (src/models/Thought.js); ObjectIds and
user references are modelled by their string representations. -/
structure Thought where
  _id : String
  message : String
  tags : List String
  hearts : Nat
  likes : List String
  user : Option String
deriving DecidableEq, Repr

/-- The failure signals surfaced by the service layer
(src/utils/errors.js), plus `typeError` for a raw JavaScript `TypeError`
thrown by dereferencing `null` (a crash, not one of the four ApiError
kinds) and `mongooseValidation` for the schema validation run by mongoose
at save time. -/
inductive ServiceError where
  | validation
  | mongooseValidation
  | notFound
  | authorization
  | typeError
deriving DecidableEq, Repr

/-- `likeThought` (src/controllers/thoughtsController.js lines 418-457),
acting on the found document: an authenticated caller toggles their
membership in `likes` and `hearts` is set to `likes.length`; an anonymous
caller just increments `hearts`. -/
def likeThought (thought : Thought) (userId : Option String) : Thought :=
  match userId with
  | some uid =>
    let alreadyLiked := thought.likes.any fun i => i == uid
    let newLikes :=
      if alreadyLiked then thought.likes.filter (fun i => i != uid)
      else thought.likes ++ [uid]
    { thought with likes := newLikes, hearts := newLikes.length }
  | none => { thought with hearts := thought.hearts + 1 }

/-- The `{ message, tags, preserveTags }` body of an update request;
`tags := none` models a request without a `tags` field. -/
structure UpdateData where
  message : String
  tags : Option (List String)
  preserveTags : Bool
deriving DecidableEq, Repr

/-- `updateThought(id, updateData, userId)` (src/services/thoughtsService.js
lines 88-122). `Thought.findById` yields the first document whose `_id`
matches. The authorization guard `thought.user && userId &&
thought.user.toString() !== userId` only fires when both an owner and a
caller id are present. `tags || []` keeps a supplied array (even an empty
one, which is truthy) and falls back to `[]` when no tags were supplied;
the classifier is not consulted. `findByIdAndUpdate` (without
`runValidators`) stores the trimmed message and the chosen tags and
returns the updated document. -/
def updateThought (thoughts : List Thought) (id : String)
    (updateData : UpdateData) (userId : Option String) :
    Except ServiceError Thought :=
  match thoughts.find? (fun t => t._id == id) with
  | none => .error .notFound
  | some thought =>
    if (match thought.user, userId with
        | some owner, some uid => owner != uid
        | _, _ => false)
    then .error .authorization
    else
      .ok { thought with
              message := jsTrim updateData.message,
              tags := if updateData.preserveTags then thought.tags
                      else updateData.tags.getD [] }

/-- `deleteThought(id, userId)` (src/services/thoughtsService.js lines
124-150). When `findById` returns `null`, the debug
`console.log('Found thought:', { id: thought._id, ... })` on line 128
dereferences `null` and throws a `TypeError` before the
`if (!thought) throw new NotFoundError(...)` check on line 134 can run, so
the not-found branch is dead code. Otherwise the thought is removed only
when it has an owner equal to the caller. -/
def deleteThought (thoughts : List Thought) (id : String) (userId : String) :
    Except ServiceError (List Thought) :=
  match thoughts.find? (fun t => t._id == id) with
  | none => .error .typeError
  | some thought =>
    match thought.user with
    | none => .error .authorization
    | some owner =>
      if owner != userId then .error .authorization
      else .ok (thoughts.eraseP (fun t => t._id == id))

/-- The `createThought` pipeline: the controller validation
(src/controllers/thoughtsController.js lines 86-116; the length bounds
`[5, 140]` are checked on the raw, untrimmed message), then
`createThought(message)` of src/services/thoughtsService.js lines 56-74
(classifier, then trim), then the mongoose save, which re-validates the
*trimmed* message against `minlength: 5` / `maxlength: 140`
(src/models/Thought.js). The generated ObjectId is opaque to every claim
and modelled by a fixed placeholder. -/
def createThought (message : String) : Except ServiceError Thought :=
  if message.data.length < 5 || message.data.length > 140 then
    .error .validation
  else if (jsTrim message).data.length < 5 || (jsTrim message).data.length > 140 then
    .error .mongooseValidation
  else
    .ok { _id := "generated-id", message := jsTrim message,
          tags := identifyTags message, hearts := 0, likes := [], user := none }

/-- A sample anonymous thought (no `user`). -/
def anonymousThought : Thought :=
  { _id := "t1", message := "original message", tags := ["general"],
    hearts := 0, likes := [], user := none }

/-- A sample thought owned by user `"alice"`. -/
def ownedThought : Thought :=
  { _id := "t2", message := "original message", tags := ["general"],
    hearts := 0, likes := [], user := some "alice" }

/-! ## C5: like semantics -/

/-- C5: on a thought with no likes and zero hearts, two successive like
calls by the same authenticated user toggle that user's membership in
`likes` (hearts go 0 → 1 → 0); two successive anonymous like calls each
increment `hearts`, for a total increase of 2; and an authenticated like
always leaves `hearts = likes.length`. -/
theorem likeThought_spec (t : Thought) (uid : String)
    (hl : t.likes = []) (hh : t.hearts = 0) :
    ((likeThought t (some uid)).likes = [uid] ∧
      (likeThought t (some uid)).hearts = 1) ∧
    ((likeThought (likeThought t (some uid)) (some uid)).likes = [] ∧
      (likeThought (likeThought t (some uid)) (some uid)).hearts = 0) ∧
    (∀ s : Thought, (likeThought (likeThought s none) none).hearts = s.hearts + 2) ∧
    (∀ s : Thought, ∀ u : String,
      (likeThought s (some u)).hearts = (likeThought s (some u)).likes.length) := by
  refine ⟨?_, ?_, ?_, ?_⟩
  · simp [likeThought, hl]
  · simp [likeThought, hl]
  · intro s
    simp [likeThought]
  · intro s u
    rfl

theorem likeThought_spec_witness :
    (likeThought anonymousThought (some "alice")).hearts = 1 ∧
    (likeThought (likeThought anonymousThought (some "alice")) (some "alice")).hearts = 0 :=
  ⟨((likeThought_spec anonymousThought "alice" rfl rfl).1).2,
   ((likeThought_spec anonymousThought "alice" rfl rfl).2.1).2⟩

/-! ## C3, C4: update semantics -/

/-- C3 counterexample: updating an anonymous thought does not fail with an
authorization error — the guard `thought.user && userId && ...` is false
when `thought.user` is absent, so the update proceeds for any caller. -/
theorem updateThought_anonymous_counterexample :
    updateThought [anonymousThought] "t1"
      { message := "replacement message", tags := none, preserveTags := false }
      (some "mallory") =
    .ok { anonymousThought with message := "replacement message", tags := [] } :=
  rfl

/-- C3 amended: update by an authenticated non-owner of an owned thought
fails with an AuthorizationViolation signal, but update of an anonymous
(ownerless) thought succeeds for any caller — the ownership guard only
fires when both owner and caller ids are present. -/
theorem updateThought_ownership (thoughts : List Thought) (id : String)
    (d : UpdateData) (uid : String) (t : Thought)
    (hfind : thoughts.find? (fun t => t._id == id) = some t) :
    (∀ owner, t.user = some owner → owner ≠ uid →
      updateThought thoughts id d (some uid) = .error .authorization) ∧
    (t.user = none → (updateThought thoughts id d (some uid)).isOk = true) := by
  constructor
  · intro owner howner hne
    have hb : (owner != uid) = true := by simpa [bne_iff_ne] using hne
    simp [updateThought, hfind, howner, hb]
  · intro hnone
    simp [updateThought, hfind, hnone, Except.isOk, Except.toBool]

theorem updateThought_ownership_witness :
    updateThought [ownedThought] "t2"
      { message := "replacement message", tags := none, preserveTags := false }
      (some "bob") = .error .authorization ∧
    (updateThought [anonymousThought] "t1"
      { message := "replacement message", tags := none, preserveTags := false }
      (some "bob")).isOk = true :=
  ⟨(updateThought_ownership [ownedThought] "t2"
      { message := "replacement message", tags := none, preserveTags := false }
      "bob" ownedThought rfl).1 "alice" rfl (by decide),
   (updateThought_ownership [anonymousThought] "t1"
      { message := "replacement message", tags := none, preserveTags := false }
      "bob" anonymousThought rfl).2 rfl⟩

/-- C4 counterexample: a successful update with no supplied tags and the
preserve flag unset stores the *empty* tag list — the classifier (which
would have produced the non-empty `["general"]`) is not re-run. -/
theorem updateThought_no_reclassify_counterexample :
    updateThought [ownedThought] "t2"
      { message := "replacement message", tags := none, preserveTags := false }
      (some "alice") =
      .ok { ownedThought with message := "replacement message", tags := [] } ∧
    identifyTags "replacement message" = ["general"] :=
  ⟨rfl, by decide⟩

/-- C4 amended: on a successful update the stored message is the trimmed
new message, and the stored tags are: the prior tags when the preserve
flag is set; the supplied tags when tags are supplied and the flag is not
set; and the empty list (not a classifier run) when tags are not supplied
and the flag is not set. -/
theorem updateThought_tags (thoughts : List Thought) (id : String)
    (d : UpdateData) (userId : Option String) (t updated : Thought)
    (hfind : thoughts.find? (fun t => t._id == id) = some t)
    (hok : updateThought thoughts id d userId = .ok updated) :
    updated.message = jsTrim d.message ∧
    (d.preserveTags = true → updated.tags = t.tags) ∧
    (d.preserveTags = false → d.tags = none → updated.tags = []) ∧
    (∀ l, d.preserveTags = false → d.tags = some l → updated.tags = l) := by
  unfold updateThought at hok
  rw [hfind] at hok
  dsimp only at hok
  split at hok
  · exact absurd hok (by simp)
  · rw [Except.ok.injEq] at hok
    subst hok
    refine ⟨rfl, ?_, ?_, ?_⟩
    · intro hp
      simp [hp]
    · intro hp htags
      simp [hp, htags]
    · intro l hp htags
      simp [hp, htags]

theorem updateThought_tags_witness :
    ({ ownedThought with
        message := "replacement message"
        tags := ([] : List String) } : Thought).message = jsTrim "replacement message" ∧
    ({ ownedThought with
        message := "replacement message"
        tags := ([] : List String) } : Thought).tags = [] := by
  have h := updateThought_tags [ownedThought] "t2"
    { message := "replacement message", tags := none, preserveTags := false }
    (some "alice") ownedThought
    { ownedThought with message := "replacement message", tags := [] } rfl rfl
  exact ⟨h.1, h.2.2.1 rfl rfl⟩

/-! ## C8: delete of a missing id -/

/-- C8 (code bug): deleting an id that is not in the collection evaluates
to the `TypeError` crash (the `null` dereference in the debug log), not to
the NotFound signal the spec requires; no thought is removed. -/
theorem deleteThought_missing_id :
    deleteThought [ownedThought] "missing" "alice" = .error .typeError ∧
    (ServiceError.typeError ≠ ServiceError.notFound) :=
  ⟨rfl, by decide⟩

/-! ## C9: creation validation -/

/-- C9 counterexample: the message `"    a"` has length exactly 5, yet
creation fails — the controller bound is checked on the raw message, but
mongoose re-validates `minlength` on the trimmed message `"a"`. -/
theorem createThought_length5_counterexample :
    ("    a" : String).data.length = 5 ∧
    createThought "    a" = .error .mongooseValidation :=
  ⟨rfl, rfl⟩

/-- C9 amended: creating with a message of length 4 fails with a
Validation signal; creating with length exactly 5 or exactly 140 succeeds
provided trimming does not shorten the message; and every successfully
stored message is the trimmed input with length within `[5, 140]`. -/
theorem createThought_spec (m : String) :
    (m.data.length = 4 → createThought m = .error .validation) ∧
    ((m.data.length = 5 ∨ m.data.length = 140) → jsTrim m = m →
      (createThought m).isOk = true) ∧
    (∀ t, createThought m = .ok t →
      t.message = jsTrim m ∧ 5 ≤ t.message.data.length ∧
        t.message.data.length ≤ 140) := by
  refine ⟨?_, ?_, ?_⟩
  · intro h4
    simp [createThought, h4]
  · intro hlen htrim
    rcases hlen with h | h <;>
      simp [createThought, htrim, h, Except.isOk, Except.toBool]
  · intro t hok
    unfold createThought at hok
    split at hok
    · exact absurd hok (by simp)
    · rename_i h1
      split at hok
      · exact absurd hok (by simp)
      · rename_i h2
        rw [Except.ok.injEq] at hok
        subst hok
        simp only [Bool.or_eq_true, decide_eq_true_eq, not_or] at h2
        refine ⟨rfl, ?_, ?_⟩
        · dsimp only
          omega
        · dsimp only
          omega

theorem createThought_spec_witness :
    createThought "abcd" = .error .validation ∧
    (createThought "hello").isOk = true ∧
    ({ _id := "generated-id", message := "hello", tags := ["general"],
       hearts := 0, likes := [], user := none } : Thought).message = jsTrim "hello" :=
  ⟨(createThought_spec "abcd").1 rfl,
   (createThought_spec "hello").2.1 (Or.inl rfl) rfl,
   ((createThought_spec "hello").2.2
     { _id := "generated-id", message := "hello", tags := ["general"],
       hearts := 0, likes := [], user := none } rfl).1⟩

/-! ## File store: pagination and tag backfill
(src/store/thoughtsStore.js; the copies in the file-backed model are
line-for-line the same) -/

/-- A record of the file store's `messages` array. `tags := none` models a
record without a `tags` field (`undefined`/`null`, falsy); `tags := some l`
models a present array, which is truthy in JavaScript even when empty. -/
structure StoredMessage where
  _id : String
  message : String
  tags : Option (List String)
  hearts : Nat
deriving DecidableEq, Repr

/-- A `{ page, limit }` pagination pointer. -/
structure PaginationLink where
  page : Nat
  limit : Nat
deriving DecidableEq, Repr

/-- The result shape of `getPaginatedThoughts`: `next`/`previous` are only
attached when a further/earlier page exists. -/
structure PaginatedResults where
  thoughts : List StoredMessage
  totalCount : Nat
  currentPage : Nat
  totalPages : Nat
  next : Option PaginationLink
  previous : Option PaginationLink
deriving DecidableEq, Repr

/-- `getPaginatedThoughts(page, limit)` (src/store/thoughtsStore.js lines
325-355): `startIndex = (page-1)*limit`, `slice(startIndex, endIndex)` is
drop-then-take, `totalPages = Math.ceil(length / limit)` which for natural
`limit ≥ 1` is `(length + limit - 1) / limit`. The controller admits only
`page ≥ 1` and `limit ∈ [1, 100]`, which is the domain this model covers
(JavaScript's negative-index `slice` and division by zero lie outside
it). -/
def getPaginatedThoughts (messages : List StoredMessage)
    (page limit : Nat) : PaginatedResults :=
  { thoughts := (messages.drop ((page - 1) * limit)).take limit
    totalCount := messages.length
    currentPage := page
    totalPages := (messages.length + limit - 1) / limit
    next :=
      if (page - 1) * limit + limit < messages.length
      then some { page := page + 1, limit := limit } else none
    previous :=
      if 0 < (page - 1) * limit
      then some { page := page - 1, limit := limit } else none }

/-- `updateExistingThoughtsWithTags()` (src/store/thoughtsStore.js lines
357-375): a single pass that gives every record failing the `!message.tags`
test (i.e. whose `tags` field is absent) the classifier's tags for its
message, counting the records so changed. A present-but-empty `tags` array
is truthy, so such records are skipped. -/
def updateExistingThoughtsWithTags (messages : List StoredMessage) :
    List StoredMessage × Nat :=
  (messages.map fun m =>
     if m.tags.isNone then { m with tags := some (identifyTags m.message) }
     else m,
   (messages.filter fun m => m.tags.isNone).length)

/-! ## C7: pagination -/

/-- C7: for every collection, `page ≥ 1` and `limit ∈ [1,100]`:
`totalPages` is the ceiling of `totalCount / limit` and at most `limit`
items are returned; over 25 records, page 1 with limit 10 yields 3 total
pages, 10 items, a next page and no previous page; page 4 with limit 10
yields an empty slice and no next page — not an error. -/
theorem getPaginatedThoughts_spec (messages : List StoredMessage)
    (page limit : Nat) (hp : 1 ≤ page) (hl1 : 1 ≤ limit) (hl2 : limit ≤ 100) :
    (getPaginatedThoughts messages page limit).totalPages =
      messages.length ⌈/⌉ limit ∧
    (getPaginatedThoughts messages page limit).thoughts.length ≤ limit ∧
    (messages.length = 25 →
      (getPaginatedThoughts messages 1 10).totalPages = 3 ∧
      (getPaginatedThoughts messages 1 10).thoughts.length = 10 ∧
      (getPaginatedThoughts messages 1 10).next = some { page := 2, limit := 10 } ∧
      (getPaginatedThoughts messages 1 10).previous = none ∧
      (getPaginatedThoughts messages 4 10).thoughts = [] ∧
      (getPaginatedThoughts messages 4 10).next = none) := by
  refine ⟨?_, ?_, ?_⟩
  · rw [Nat.ceilDiv_eq_add_pred_div]
    rfl
  · show ((messages.drop ((page - 1) * limit)).take limit).length ≤ limit
    rw [List.length_take]
    exact min_le_left _ _
  · intro h25
    refine ⟨?_, ?_, ?_, ?_, ?_, ?_⟩
    · show (messages.length + 10 - 1) / 10 = 3
      rw [h25]
    · show ((messages.drop ((1 - 1) * 10)).take 10).length = 10
      rw [List.length_take, List.length_drop, h25]
      decide
    · show (if (1 - 1) * 10 + 10 < messages.length
            then some (⟨2, 10⟩ : PaginationLink) else none) =
        some (⟨2, 10⟩ : PaginationLink)
      rw [h25]
      decide
    · rfl
    · show (messages.drop ((4 - 1) * 10)).take 10 = []
      have hd : messages.drop ((4 - 1) * 10) = [] :=
        List.drop_eq_nil_of_le (by omega)
      rw [hd]
      rfl
    · show (if (4 - 1) * 10 + 10 < messages.length
            then some (⟨5, 10⟩ : PaginationLink) else none) = none
      rw [h25]
      decide

theorem getPaginatedThoughts_spec_witness :
    (getPaginatedThoughts
        (List.replicate 25
          { _id := "m", message := "hello world", tags := none, hearts := 0 })
        1 10).totalPages = 3 ∧
    (getPaginatedThoughts
        (List.replicate 25
          { _id := "m", message := "hello world", tags := none, hearts := 0 })
        4 10).thoughts = [] := by
  have h := getPaginatedThoughts_spec
    (List.replicate 25
      { _id := "m", message := "hello world", tags := none, hearts := 0 })
    1 10 (by decide) (by decide) (by decide)
  have h25 := h.2.2 (by simp)
  exact ⟨h25.1, h25.2.2.2.2.1⟩

/-! ## C6: tag backfill -/

/-- A stored record whose `tags` field is present but empty. -/
def emptyTaggedMessage : StoredMessage :=
  { _id := "m1", message := "just some text", tags := some [], hearts := 0 }

/-- C6 counterexample: a record whose `tags` field is the *empty array* is
not touched by the backfill and not counted — `!message.tags` is false for
`[]`, which is truthy in JavaScript — although the claim requires every
thought with empty-or-missing tags to receive classifier tags (here the
non-empty `["general"]`) and be counted. -/
theorem backfill_empty_tags_counterexample :
    updateExistingThoughtsWithTags [emptyTaggedMessage] =
      ([emptyTaggedMessage], 0) ∧
    identifyTags emptyTaggedMessage.message = ["general"] :=
  ⟨rfl, by decide⟩

theorem all_filter_self {α : Type} (p : α → Bool) (l : List α) :
    (l.filter p).all p = true := by
  rw [List.all_eq_true]
  intro a ha
  exact (List.mem_filter.mp ha).2

theorem backfill_map_noop (l : List StoredMessage)
    (h : ∀ m ∈ l, m.tags.isSome = true) :
    (l.map fun m =>
      if m.tags.isNone then { m with tags := some (identifyTags m.message) }
      else m) = l := by
  induction l with
  | nil => rfl
  | cons m ms ih =>
    have hm := h m (List.mem_cons_self m ms)
    obtain ⟨v, hv⟩ := Option.isSome_iff_exists.mp hm
    rw [List.map_cons]
    have hhead :
        (if m.tags.isNone
         then { m with tags := some (identifyTags m.message) } else m) = m := by
      rw [hv]
      rfl
    rw [hhead, ih fun x hx => h x (List.mem_cons_of_mem _ hx)]

theorem backfill_noop (l : List StoredMessage)
    (h : (l.all fun m => m.tags.isSome) = true) :
    updateExistingThoughtsWithTags l = (l, 0) := by
  rw [List.all_eq_true] at h
  have hfil : (l.filter fun m => m.tags.isNone) = [] := by
    rw [List.filter_eq_nil_iff]
    intro m hm
    obtain ⟨v, hv⟩ := Option.isSome_iff_exists.mp (h m hm)
    simp [hv]
  unfold updateExistingThoughtsWithTags
  rw [backfill_map_noop l h, hfil]
  rfl

/-- C6 amended: the backfill scans the whole collection in place (the
result has the same length); every record whose `tags` field is absent
receives exactly the classifier's tags for its message, at its position;
every record whose `tags` field is present — even as an empty array — is
unchanged; the returned count is the number of absent-tags records; after
one run every record has a `tags` field, and a second run on the result
changes nothing and returns 0. -/
theorem updateExistingThoughtsWithTags_spec (messages : List StoredMessage) :
    (updateExistingThoughtsWithTags messages).2 =
      (messages.filter fun m => m.tags.isNone).length ∧
    (updateExistingThoughtsWithTags messages).1.length = messages.length ∧
    (∀ (i : Nat) (m : StoredMessage), messages[i]? = some m → m.tags = none →
      (updateExistingThoughtsWithTags messages).1[i]? =
        some { m with tags := some (identifyTags m.message) }) ∧
    (∀ (i : Nat) (m : StoredMessage) (l : List String),
      messages[i]? = some m → m.tags = some l →
      (updateExistingThoughtsWithTags messages).1[i]? = some m) ∧
    ((updateExistingThoughtsWithTags messages).1.all fun m => m.tags.isSome) =
      true ∧
    updateExistingThoughtsWithTags ((updateExistingThoughtsWithTags messages).1) =
      ((updateExistingThoughtsWithTags messages).1, 0) := by
  have hall :
      ((updateExistingThoughtsWithTags messages).1.all fun m => m.tags.isSome) =
        true := by
    rw [List.all_eq_true]
    intro m hm
    simp only [updateExistingThoughtsWithTags] at hm
    rw [List.mem_map] at hm
    obtain ⟨x, hx, rfl⟩ := hm
    cases ht : x.tags <;> simp [ht]
  refine ⟨rfl, ?_, ?_, ?_, hall, backfill_noop _ hall⟩
  · simp [updateExistingThoughtsWithTags]
  · intro i m hm htags
    simp only [updateExistingThoughtsWithTags]
    rw [List.getElem?_map, hm]
    simp [htags]
  · intro i m l hm htags
    simp only [updateExistingThoughtsWithTags]
    rw [List.getElem?_map, hm]
    simp [htags]

/-- A stored record with no `tags` field at all. -/
def untaggedMessage : StoredMessage :=
  { _id := "m0", message := "hello world", tags := none, hearts := 0 }

theorem updateExistingThoughtsWithTags_spec_witness :
    (updateExistingThoughtsWithTags [untaggedMessage, emptyTaggedMessage]).1[0]? =
      some { untaggedMessage with
              tags := some (identifyTags untaggedMessage.message) } ∧
    (updateExistingThoughtsWithTags [untaggedMessage, emptyTaggedMessage]).1[1]? =
      some emptyTaggedMessage :=
  ⟨(updateExistingThoughtsWithTags_spec
      [untaggedMessage, emptyTaggedMessage]).2.2.1 0 untaggedMessage rfl rfl,
   (updateExistingThoughtsWithTags_spec
      [untaggedMessage, emptyTaggedMessage]).2.2.2.1 1 emptyTaggedMessage [] rfl rfl⟩

/-! ## Raw JSON loading (src/store/thoughtsStore.js lines 9-42) -/

/-- A parsed JSON value. JSON numbers are modelled as integers — the only
numeric field the loader inspects, `hearts`, is an integer count, and the
loader only asks `typeof === 'number'`. An absent object property reads as
`undefined`; it is modelled by `null`, which has the same truthiness and
is likewise not a number. -/
inductive JSValue where
  | null : JSValue
  | boolean : Bool → JSValue
  | number : Int → JSValue
  | string : String → JSValue
  | array : List JSValue → JSValue
  | object : List (String × JSValue) → JSValue

/-- JavaScript truthiness of a parsed JSON value. -/
def truthy : JSValue → Bool
  | .null => false
  | .boolean b => b
  | .number n => n != 0
  | .string s => !s.isEmpty
  | .array _ => true
  | .object _ => true

/-- `typeof v === 'object'` (true for objects, arrays and `null`). -/
def typeofObject : JSValue → Bool
  | .null => true
  | .array _ => true
  | .object _ => true
  | _ => false

/-- `typeof v === 'number'`. -/
def isNumber : JSValue → Bool
  | .number _ => true
  | _ => false

/-- Property read `v[name]`, yielding `null` (for `undefined`) when the
value is not an object or lacks the property. The loader only reads
properties of values already known truthy, so the `null` receiver case is
unreachable there. -/
def getField (v : JSValue) (name : String) : JSValue :=
  match v with
  | .object fields =>
    match fields.find? (fun p => p.1 == name) with
    | some p => p.2
    | none => .null
  | _ => .null

/-- The entry filter of `loadData`: truthy, of object type, with truthy
`_id`, truthy `message` and numeric `hearts`. -/
def isValidEntry (v : JSValue) : Bool :=
  truthy v && typeofObject v && truthy (getField v "_id") &&
    truthy (getField v "message") && isNumber (getField v "hearts")

/-- `loadData()` (src/store/thoughtsStore.js lines 9-42). The input models
the outcome of `readFileSync` + `JSON.parse`: `.error` when either throws
(unreadable file, corrupt JSON — the surrounding `try/catch` returns `[]`),
`.ok v` for the parsed value. A non-array value yields `[]`; an array is
filtered down to its valid entries. -/
def loadData (raw : Except Unit JSValue) : List JSValue :=
  match raw with
  | .error _ => []
  | .ok v =>
    match v with
    | .array entries => entries.filter isValidEntry
    | _ => []

/-! ## C10: loading never fails and sanitises every entry -/

/-- C10: for every file content — read/parse failure, a non-array value,
or an array with arbitrary entries — `loadData` returns a (possibly empty)
list in which every record is an object-typed value with truthy `_id`,
truthy `message` and numeric `hearts`; offending entries are dropped by
the filter, and failures yield `[]` rather than an error. -/
theorem loadData_spec :
    (∀ raw, ((loadData raw).all isValidEntry) = true) ∧
    (∀ raw v, v ∈ loadData raw →
      typeofObject v = true ∧ truthy (getField v "_id") = true ∧
        truthy (getField v "message") = true ∧
        isNumber (getField v "hearts") = true) ∧
    (∀ entries, loadData (.ok (.array entries)) = entries.filter isValidEntry) ∧
    (∀ v, (∀ entries, v ≠ .array entries) → loadData (.ok v) = []) ∧
    (∀ e, loadData (.error e) = []) := by
  have hAll : ∀ raw, ((loadData raw).all isValidEntry) = true := by
    intro raw
    cases raw with
    | error e => rfl
    | ok v =>
      cases v <;> try rfl
      exact all_filter_self _ _
  refine ⟨hAll, ?_, ?_, ?_, ?_⟩
  · intro raw v hv
    have hval : isValidEntry v = true := by
      have h := hAll raw
      rw [List.all_eq_true] at h
      exact h v hv
    simp only [isValidEntry, Bool.and_eq_true] at hval
    obtain ⟨⟨⟨⟨h1, h2⟩, h3⟩, h4⟩, h5⟩ := hval
    exact ⟨h2, h3, h4, h5⟩
  · intro entries
    rfl
  · intro v hv
    cases v <;> try rfl
    exact absurd rfl (hv _)
  · intro e
    rfl

/-- A well-formed stored entry, as JSON. -/
def goodEntry : JSValue :=
  .object [("_id", .string "1"), ("message", .string "hello"),
           ("hearts", .number 0)]

/-- A parse result mixing one valid entry with junk. -/
def rawSample : Except Unit JSValue :=
  .ok (.array [goodEntry, .null, .string "junk"])

theorem loadData_spec_witness :
    typeofObject goodEntry = true ∧
    truthy (getField goodEntry "_id") = true ∧
    truthy (getField goodEntry "message") = true ∧
    isNumber (getField goodEntry "hearts") = true ∧
    loadData (.error ()) = [] := by
  have hmem : goodEntry ∈ loadData rawSample := by
    show goodEntry ∈ [goodEntry]
    exact List.mem_singleton.mpr rfl
  obtain ⟨h1, h2, h3, h4⟩ := loadData_spec.2.1 rawSample goodEntry hmem
  exact ⟨h1, h2, h3, h4, loadData_spec.2.2.2.2 ()⟩

end HappyThoughts
